import Mathlib

/-!
Shallow embedding of the JEDT CMAPSS synthetic data generator core
(registry, sensor series generator, health assessment generator,
performance metrics derivation, component health breakdown), translated
from `Engine3DVisualization.tsx` and the engine-data module.

JavaScript numbers are modelled as exact rationals (`ℚ`).
`Number(x.toFixed(d))` and `Math.round` round half away from zero toward
positive infinity, which is Mathlib's `round` (`⌊x + 1/2⌋`); `roundTo d`
models `toFixed(d)`.  `Math.random()` draws are modelled by an explicit
environment: `rand cycle k` is the k-th draw performed while building the
reading of a given cycle (the source draws a fresh value at each call
site).  `Math.sqrt` (used only by the corrected-speed channels) is an
uninterpreted function of the environment.  Dates are carried as epoch
milliseconds (sensor timestamps) or as their source string literals
(inspection dates); the ISO-string formatting is elided.
-/

namespace JEDT

/-- Models `Number(x.toFixed(d))`: round to `d` decimal digits,
half away from zero toward +∞ (Mathlib `round`). -/
def roundTo (d : ℕ) (x : ℚ) : ℚ := ((round (x * 10 ^ d) : ℤ) : ℚ) / 10 ^ d

/-- The TS union type of `dataset`. -/
inductive Dataset where
  | FD001
  | FD002
  | FD003
  | FD004
deriving DecidableEq, Inhabited

/-- `CMAPSSEngine` interface (registry record). -/
structure CMAPSSEngine where
  engineId : String
  model : String
  serialNumber : String
  flightHours : ℕ
  cycles : ℕ
  healthScore : ℚ
  status : String
  lastMaintenance : String
  nextMaintenance : String
  dataset : Dataset
  operationalConditions : String
  faultModes : List String
deriving DecidableEq, Inhabited

def engineFD001a : CMAPSSEngine :=
  { engineId := "CMAPSS-FD001-001", model := "CFM56-7B (CMAPSS)", serialNumber := "SN001"
    flightHours := 15420, cycles := 362, healthScore := 92.5, status := "operational"
    lastMaintenance := "2024-01-15", nextMaintenance := "2024-07-15", dataset := Dataset.FD001
    operationalConditions := "Sea Level", faultModes := ["HPC Degradation"] }

def engineFD001b : CMAPSSEngine :=
  { engineId := "CMAPSS-FD001-002", model := "CFM56-7B (CMAPSS)", serialNumber := "SN002"
    flightHours := 12850, cycles := 334, healthScore := 88.7, status := "operational"
    lastMaintenance := "2024-02-01", nextMaintenance := "2024-08-01", dataset := Dataset.FD001
    operationalConditions := "Sea Level", faultModes := ["HPC Degradation"] }

def engineFD001c : CMAPSSEngine :=
  { engineId := "CMAPSS-FD001-003", model := "CFM56-7B (CMAPSS)", serialNumber := "SN003"
    flightHours := 8920, cycles := 206, healthScore := 95.2, status := "operational"
    lastMaintenance := "2024-03-10", nextMaintenance := "2024-09-10", dataset := Dataset.FD001
    operationalConditions := "Sea Level", faultModes := ["HPC Degradation"] }

def engineFD002a : CMAPSSEngine :=
  { engineId := "CMAPSS-FD002-001", model := "CFM56-7B (CMAPSS)", serialNumber := "SN101"
    flightHours := 18650, cycles := 298, healthScore := 85.4, status := "operational"
    lastMaintenance := "2024-01-20", nextMaintenance := "2024-07-20", dataset := Dataset.FD002
    operationalConditions := "6 Operating Conditions", faultModes := ["HPC Degradation"] }

def engineFD002b : CMAPSSEngine :=
  { engineId := "CMAPSS-FD002-002", model := "CFM56-7B (CMAPSS)", serialNumber := "SN102"
    flightHours := 21340, cycles := 356, healthScore := 78.9, status := "maintenance_required"
    lastMaintenance := "2024-02-15", nextMaintenance := "2024-05-15", dataset := Dataset.FD002
    operationalConditions := "6 Operating Conditions", faultModes := ["HPC Degradation"] }

def engineFD003a : CMAPSSEngine :=
  { engineId := "CMAPSS-FD003-001", model := "CFM56-7B (CMAPSS)", serialNumber := "SN201"
    flightHours := 16780, cycles := 285, healthScore := 82.1, status := "operational"
    lastMaintenance := "2024-01-25", nextMaintenance := "2024-06-25", dataset := Dataset.FD003
    operationalConditions := "Sea Level", faultModes := ["HPC Degradation", "Fan Degradation"] }

def engineFD003b : CMAPSSEngine :=
  { engineId := "CMAPSS-FD003-002", model := "CFM56-7B (CMAPSS)", serialNumber := "SN202"
    flightHours := 19420, cycles := 312, healthScore := 74.6, status := "maintenance_required"
    lastMaintenance := "2024-03-01", nextMaintenance := "2024-05-01", dataset := Dataset.FD003
    operationalConditions := "Sea Level", faultModes := ["HPC Degradation", "Fan Degradation"] }

def engineFD004a : CMAPSSEngine :=
  { engineId := "CMAPSS-FD004-001", model := "CFM56-7B (CMAPSS)", serialNumber := "SN301"
    flightHours := 22150, cycles := 341, healthScore := 71.3, status := "degraded"
    lastMaintenance := "2024-02-10", nextMaintenance := "2024-04-10", dataset := Dataset.FD004
    operationalConditions := "6 Operating Conditions", faultModes := ["HPC Degradation", "Fan Degradation"] }

def engineFD004b : CMAPSSEngine :=
  { engineId := "CMAPSS-FD004-002", model := "CFM56-7B (CMAPSS)", serialNumber := "SN302"
    flightHours := 24680, cycles := 378, healthScore := 68.9, status := "degraded"
    lastMaintenance := "2024-01-05", nextMaintenance := "2024-03-05", dataset := Dataset.FD004
    operationalConditions := "6 Operating Conditions", faultModes := ["HPC Degradation", "Fan Degradation"] }

/-- `cmapssEngines`: the fixed in-memory registry, in source order. -/
def cmapssEngines : List CMAPSSEngine :=
  [engineFD001a, engineFD001b, engineFD001c,
   engineFD002a, engineFD002b,
   engineFD003a, engineFD003b,
   engineFD004a, engineFD004b]

/-- Per-dataset parameter row of the `datasetParams` table. -/
structure DatasetParams where
  altitudeBase : ℚ
  machBase : ℚ
  tempVariation : ℚ
deriving DecidableEq

/-- The four-entry `datasetParams` lookup table. -/
def datasetParams : Dataset → DatasetParams
  | Dataset.FD001 => { altitudeBase := 0, machBase := 0.0, tempVariation := 0.5 }
  | Dataset.FD002 => { altitudeBase := 25000, machBase := 0.7, tempVariation := 2.0 }
  | Dataset.FD003 => { altitudeBase := 0, machBase := 0.0, tempVariation := 0.8 }
  | Dataset.FD004 => { altitudeBase := 30000, machBase := 0.75, tempVariation := 2.5 }

/-- Ambient-randomness environment: `rand c k` is the k-th `Math.random()`
draw made while building cycle `c`'s reading; `sqrtFn` models `Math.sqrt`. -/
structure Env where
  rand : ℕ → ℕ → ℚ
  sqrtFn : ℚ → ℚ

/-- `new Date('2024-01-01').getTime()` in milliseconds. -/
def baseDateMs : ℤ := 1704067200000

/-- `CMAPSSSensorReading` interface; `timestamp` is kept as epoch ms. -/
structure CMAPSSSensorReading where
  timestamp : ℤ
  engineId : String
  cycle : ℕ
  EGT : ℚ
  N1 : ℚ
  N2 : ℚ
  fuelFlow : ℚ
  oilPressure : ℚ
  oilTemperature : ℚ
  vibration : ℚ
  altitude : ℚ
  machNumber : ℚ
  ambientTemp : ℚ
  T2 : ℚ
  T24 : ℚ
  T30 : ℚ
  P2 : ℚ
  P15 : ℚ
  P24 : ℚ
  Ps30 : ℚ
  Nf : ℚ
  Nc : ℚ
  epr : ℚ
  phi : ℚ
  NRf : ℚ
  NRc : ℚ
  BPR : ℚ
  farB : ℚ
  htBleed : ℚ
  Nf_dmd : ℚ
  PCNfR_dmd : ℚ
  W31 : ℚ
deriving DecidableEq, Inhabited

/-- One iteration of the `for (let cycle = 1; cycle <= cycles; cycle++)`
loop body of `generateCMAPSSSensorData`. -/
def mkReading (env : Env) (engine : CMAPSSEngine) (params : DatasetParams)
    (engineId : String) (cycle : ℕ) : CMAPSSSensorReading :=
  let degradationFactor : ℚ := 1 - ((cycle : ℚ) / ((engine.cycles : ℚ) * 1.2))
  let healthFactor : ℚ := max 0.6 degradationFactor
  let noise : ℕ → ℚ := fun k => (env.rand cycle k - 0.5) * 0.02
  let cycleNoise : ℕ → ℚ := fun k => (env.rand cycle k - 0.5) * params.tempVariation
  let T2 : ℚ := 518.67 + cycleNoise 0
  let T24 : ℚ := 1580 + cycleNoise 1 * 10 + (1 - healthFactor) * 20
  let T30 : ℚ := 1350 + cycleNoise 2 * 15 + (1 - healthFactor) * 30
  let P2 : ℚ := 14.62 + noise 3
  let P15 : ℚ := 8.44 + noise 4 * 0.5
  let P24 : ℚ := 593.0 + cycleNoise 5 * 20 + (1 - healthFactor) * 50
  let Ps30 : ℚ := 1400 + cycleNoise 6 * 30 + (1 - healthFactor) * 60
  let Nf : ℚ := 2388.0 * healthFactor + cycleNoise 7 * 10
  let Nc : ℚ := 9046.0 * healthFactor + cycleNoise 8 * 50
  let epr : ℚ := P24 / P2
  let phi : ℚ := 0.03 + noise 9 * 0.002 + (1 - healthFactor) * 0.005
  let EGT : ℚ := (T30 - 459.67) * 5 / 9
  let N1 : ℚ := Nf / 2400 * 100
  let N2 : ℚ := Nc / 9100 * 100
  let fuelFlow : ℚ := phi * Ps30 * 0.1
  let timestamp : ℤ := baseDateMs + (cycle : ℤ) * 86400000
  { timestamp := timestamp
    engineId := engineId
    cycle := cycle
    EGT := roundTo 1 EGT
    N1 := roundTo 1 N1
    N2 := roundTo 1 N2
    fuelFlow := roundTo 0 fuelFlow
    oilPressure := roundTo 1 (P24 * 0.025)
    oilTemperature := roundTo 1 (EGT * 0.6)
    vibration := roundTo 2 (|Nf - 2388| * 0.001)
    altitude := params.altitudeBase + cycleNoise 10 * 1000
    machNumber := roundTo 2 (params.machBase + noise 11 * 0.1)
    ambientTemp := roundTo 1 (15 - params.altitudeBase * 0.0065)
    T2 := roundTo 2 T2
    T24 := roundTo 2 T24
    T30 := roundTo 2 T30
    P2 := roundTo 2 P2
    P15 := roundTo 2 P15
    P24 := roundTo 2 P24
    Ps30 := roundTo 2 Ps30
    Nf := roundTo 2 Nf
    Nc := roundTo 2 Nc
    epr := roundTo 3 epr
    phi := roundTo 4 phi
    NRf := roundTo 2 (Nf / env.sqrtFn (T2 / 518.67))
    NRc := roundTo 2 (Nc / env.sqrtFn (T24 / 518.67))
    BPR := roundTo 2 (5.1 + noise 12 * 0.1)
    farB := roundTo 4 (0.024 + noise 13 * 0.001)
    htBleed := roundTo 2 (394 + noise 14 * 5)
    Nf_dmd := roundTo 2 (Nf + cycleNoise 15)
    PCNfR_dmd := roundTo 2 (47.47 + noise 16)
    W31 := roundTo 2 (39.06 + noise 17 * 2) }

/-- `generateCMAPSSSensorData(engineId, cycles)`: silent-empty on unknown
id, otherwise one reading per cycle `1..cycles` in push order. -/
def generateCMAPSSSensorData (env : Env) (engineId : String) (cycles : ℕ) :
    List CMAPSSSensorReading :=
  match cmapssEngines.find? (fun e => e.engineId == engineId) with
  | none => []
  | some engine =>
    let params := datasetParams engine.dataset
    (List.range cycles).map (fun i => mkReading env engine params engineId (i + 1))

/-- `CMAPSSHealthData` interface. -/
structure CMAPSSHealthData where
  engineId : String
  currentCycle : ℕ
  remainingUsefulLife : ℤ
  healthScore : ℚ
  degradationRate : ℚ
  faultProbability : ℚ
  maintenanceRecommendation : String
  criticalComponents : List String
deriving DecidableEq

/-- `generateCMAPSSHealthData(engineId)`: throws (here `Except.error`)
`Engine <id> not found` on unknown id, otherwise the health assessment. -/
def generateCMAPSSHealthData (engineId : String) : Except String CMAPSSHealthData :=
  match cmapssEngines.find? (fun e => e.engineId == engineId) with
  | none => Except.error ("Engine " ++ engineId ++ " not found")
  | some engine =>
    let estimatedTotalLife : ℚ := (engine.cycles : ℚ) * 1.3
    let remainingCycles : ℚ := max 0 (estimatedTotalLife - (engine.cycles : ℚ))
    let baseDegradationRate : ℚ := 0.15
    let baseDegradationRate : ℚ :=
      if engine.faultModes.contains "Fan Degradation" then baseDegradationRate + 0.05
      else baseDegradationRate
    let baseDegradationRate : ℚ :=
      if engine.dataset == Dataset.FD002 || engine.dataset == Dataset.FD004 then
        baseDegradationRate + 0.03
      else baseDegradationRate
    let faultProbability : ℚ := max 0 ((100 - engine.healthScore) / 100 * 0.8)
    let criticalComponents : List String :=
      (if engine.faultModes.contains "HPC Degradation" then
        ["High Pressure Compressor", "Compressor Blades"] else []) ++
      (if engine.faultModes.contains "Fan Degradation" then
        ["Fan Blades", "Fan Disk"] else []) ++
      (if engine.healthScore < 80 then ["Combustor", "Turbine Blades"] else [])
    let recommendation : String := "Continue normal operations"
    let recommendation : String :=
      if engine.healthScore < 85 then "Schedule borescope inspection within 50 cycles"
      else recommendation
    let recommendation : String :=
      if engine.healthScore < 75 then
        "Plan maintenance within 25 cycles - component replacement may be required"
      else recommendation
    let recommendation : String :=
      if engine.healthScore < 70 then
        "URGENT: Schedule immediate maintenance - engine approaching critical degradation levels"
      else recommendation
    Except.ok
      { engineId := engineId
        currentCycle := engine.cycles
        remainingUsefulLife := round remainingCycles
        healthScore := engine.healthScore
        degradationRate := roundTo 3 baseDegradationRate
        faultProbability := roundTo 3 faultProbability
        maintenanceRecommendation := recommendation
        criticalComponents := criticalComponents }

/-- Return record of `getCMAPSSPerformanceMetrics`. -/
structure PerformanceData where
  engineId : String
  fuelEfficiency : ℚ
  thermalEfficiency : ℚ
  thrustOutput : ℤ
  operatingTemperature : ℚ
  vibrationLevel : ℚ
  pressureRatio : ℚ
  fanSpeed : ℚ
  coreSpeed : ℚ
  dataset : Dataset
  operationalConditions : String
  faultModes : List String
deriving DecidableEq

/-- `getCMAPSSPerformanceMetrics(engineId)`: `null` (here `none`) on
unknown id or empty series, otherwise metrics from the last of a
10-cycle generated series. -/
def getCMAPSSPerformanceMetrics (env : Env) (engineId : String) : Option PerformanceData :=
  match cmapssEngines.find? (fun e => e.engineId == engineId) with
  | none => none
  | some engine =>
    let sensorData := generateCMAPSSSensorData env engineId 10
    match sensorData.getLast? with
    | none => none
    | some latestReading =>
      let baselineEGT : ℚ := 650
      let baselineFuelFlow : ℚ := 2500
      let fuelEfficiency : ℚ :=
        max 0.7 (1 - (latestReading.fuelFlow - baselineFuelFlow) / baselineFuelFlow)
      let thermalEfficiency : ℚ :=
        max 0.75 (1 - (latestReading.EGT - baselineEGT) / baselineEGT)
      some
        { engineId := engineId
          fuelEfficiency := roundTo 3 fuelEfficiency
          thermalEfficiency := roundTo 3 thermalEfficiency
          thrustOutput := round ((24000 : ℚ) * (engine.healthScore / 100))
          operatingTemperature := latestReading.EGT
          vibrationLevel := latestReading.vibration
          pressureRatio := latestReading.epr
          fanSpeed := latestReading.N1
          coreSpeed := latestReading.N2
          dataset := engine.dataset
          operationalConditions := engine.operationalConditions
          faultModes := engine.faultModes }

/-- One entry of the component breakdown returned by `getComponentHealthData`. -/
structure ComponentHealth where
  id : String
  name : String
  health : ℤ
  status : String
  lastInspection : String
  nextInspection : String
deriving DecidableEq

/-- `getComponentHealthData(engineId)`: calls `generateCMAPSSHealthData`
(whose NotFound exception propagates, modelled by `Except`), then builds
the fixed 5-component breakdown; `rand k` is the k-th `Math.random()`
call site. -/
def getComponentHealthData (rand : ℕ → ℚ) (engineId : String) :
    Except String (List ComponentHealth) :=
  match generateCMAPSSHealthData engineId with
  | Except.error e => Except.error e
  | Except.ok healthData =>
    Except.ok
      [ { id := "fan", name := "Fan Assembly"
          health :=
            if healthData.faultProbability > 0.3 then
              round ((85 : ℚ) - healthData.faultProbability * 20)
            else round ((90 : ℚ) + rand 0 * 8)
          status := "normal"
          lastInspection := "2024-01-15", nextInspection := "2024-07-15" },
        { id := "compressor", name := "High Pressure Compressor"
          health := round (healthData.healthScore - 5 + rand 1 * 10)
          status :=
            if healthData.criticalComponents.contains "High Pressure Compressor" then
              "warning"
            else "normal"
          lastInspection := "2024-02-01", nextInspection := "2024-08-01" },
        { id := "combustor", name := "Combustor"
          health := round (healthData.healthScore + rand 2 * 5)
          status := "normal"
          lastInspection := "2024-01-20", nextInspection := "2024-07-20" },
        { id := "turbine", name := "Turbine Assembly"
          health := round (healthData.healthScore - 3 + rand 3 * 6)
          status := if healthData.healthScore < 75 then "warning" else "normal"
          lastInspection := "2024-03-01", nextInspection := "2024-09-01" },
        { id := "nozzle", name := "Exhaust Nozzle"
          health := round ((92 : ℚ) + rand 4 * 6)
          status := "normal"
          lastInspection := "2024-02-15", nextInspection := "2024-08-15" } ]

/-- A concrete environment for witnesses: every `Math.random()` draw is
`0.5` (so every noise term is zero) and `sqrtFn` is constantly 1. -/
def env0 : Env := { rand := fun _ _ => 0.5, sqrtFn := fun _ => 1 }

/-- A concrete draw sequence for component-health witnesses. -/
def rand0 : ℕ → ℚ := fun _ => 0.5

/-- The first reading generated for `CMAPSS-FD001-001` under `env0`. -/
def sampleReading : CMAPSSSensorReading :=
  (generateCMAPSSSensorData env0 "CMAPSS-FD001-001" 1).headI

/-! ## Helper lemmas -/

theorem round_rat_mono {x y : ℚ} (h : x ≤ y) : round x ≤ round y := by
  rw [round_eq, round_eq]
  exact Int.floor_mono (by linarith)

theorem roundTo_mono (d : ℕ) {x y : ℚ} (h : x ≤ y) : roundTo d x ≤ roundTo d y := by
  have h10 : (0 : ℚ) < 10 ^ d := by positivity
  have h1 : round (x * 10 ^ d) ≤ round (y * 10 ^ d) :=
    round_rat_mono (mul_le_mul_of_nonneg_right h h10.le)
  have h2 : ((round (x * 10 ^ d) : ℤ) : ℚ) ≤ ((round (y * 10 ^ d) : ℤ) : ℚ) := by
    exact_mod_cast h1
  unfold roundTo
  rw [div_eq_mul_inv, div_eq_mul_inv]
  exact mul_le_mul_of_nonneg_right h2 (by positivity)

theorem generate_unknown (env : Env) (engineId : String) (n : ℕ)
    (h : cmapssEngines.find? (fun e => e.engineId == engineId) = none) :
    generateCMAPSSSensorData env engineId n = [] := by
  unfold generateCMAPSSSensorData
  rw [h]

theorem generate_found (env : Env) (engineId : String) (n : ℕ) (engine : CMAPSSEngine)
    (h : cmapssEngines.find? (fun e => e.engineId == engineId) = some engine) :
    generateCMAPSSSensorData env engineId n =
      (List.range n).map
        (fun i => mkReading env engine (datasetParams engine.dataset) engineId (i + 1)) := by
  unfold generateCMAPSSSensorData
  rw [h]

theorem mkReading_T30_EGT (env : Env) (engine : CMAPSSEngine) (p : DatasetParams)
    (engineId : String) (cycle : ℕ) :
    ∃ t : ℚ, (mkReading env engine p engineId cycle).T30 = roundTo 2 t ∧
      (mkReading env engine p engineId cycle).EGT = roundTo 1 ((t - 459.67) * 5 / 9) :=
  ⟨1350 + (env.rand cycle 2 - 0.5) * p.tempVariation * 15 +
      (1 - max 0.6 (1 - ((cycle : ℚ) / ((engine.cycles : ℚ) * 1.2)))) * 30, rfl, rfl⟩

theorem mkReading_epr (env : Env) (engine : CMAPSSEngine) (p : DatasetParams)
    (engineId : String) (cycle : ℕ) :
    ∃ p24 p2 : ℚ, (mkReading env engine p engineId cycle).P24 = roundTo 2 p24 ∧
      (mkReading env engine p engineId cycle).P2 = roundTo 2 p2 ∧
      (mkReading env engine p engineId cycle).epr = roundTo 3 (p24 / p2) :=
  ⟨593.0 + (env.rand cycle 5 - 0.5) * p.tempVariation * 20 +
      (1 - max 0.6 (1 - ((cycle : ℚ) / ((engine.cycles : ℚ) * 1.2)))) * 50,
   14.62 + (env.rand cycle 3 - 0.5) * 0.02, rfl, rfl, rfl⟩

theorem metrics_found (env : Env) (engineId : String) (engine : CMAPSSEngine)
    (h : cmapssEngines.find? (fun e => e.engineId == engineId) = some engine) :
    getCMAPSSPerformanceMetrics env engineId =
      some
        { engineId := engineId
          fuelEfficiency := roundTo 3 (max 0.7 (1 -
            ((mkReading env engine (datasetParams engine.dataset) engineId 10).fuelFlow - 2500)
              / 2500))
          thermalEfficiency := roundTo 3 (max 0.75 (1 -
            ((mkReading env engine (datasetParams engine.dataset) engineId 10).EGT - 650) / 650))
          thrustOutput := round ((24000 : ℚ) * (engine.healthScore / 100))
          operatingTemperature :=
            (mkReading env engine (datasetParams engine.dataset) engineId 10).EGT
          vibrationLevel :=
            (mkReading env engine (datasetParams engine.dataset) engineId 10).vibration
          pressureRatio :=
            (mkReading env engine (datasetParams engine.dataset) engineId 10).epr
          fanSpeed := (mkReading env engine (datasetParams engine.dataset) engineId 10).N1
          coreSpeed := (mkReading env engine (datasetParams engine.dataset) engineId 10).N2
          dataset := engine.dataset
          operationalConditions := engine.operationalConditions
          faultModes := engine.faultModes } := by
  unfold getCMAPSSPerformanceMetrics generateCMAPSSSensorData
  rw [h]
  rfl

/-! ## Claims -/

/-- C1: for every engineId present in the registry and every cycleCount
`n ≥ 0`, `generateCMAPSSSensorData` returns a sequence of exactly `n`
readings whose `cycle` fields are exactly `1, 2, ..., n` in strictly
ascending order (their map is `List.range' 1 n`), for every noise
environment. -/
theorem generate_returns_ascending_cycles (env : Env) (engineId : String) (n : ℕ)
    (engine : CMAPSSEngine)
    (h : cmapssEngines.find? (fun e => e.engineId == engineId) = some engine) :
    (generateCMAPSSSensorData env engineId n).length = n ∧
    (generateCMAPSSSensorData env engineId n).map (fun r => r.cycle) = List.range' 1 n := by
  rw [generate_found env engineId n engine h]
  refine ⟨by simp, ?_⟩
  rw [List.map_map]
  have hfn : ((fun r => r.cycle) ∘ fun i =>
      mkReading env engine (datasetParams engine.dataset) engineId (i + 1)) =
      fun i => 1 + i := by
    funext i
    show i + 1 = 1 + i
    omega
  rw [hfn, List.range_eq_range', List.map_add_range' 1 0 n 1]

/-- Witness for C1 at engine `CMAPSS-FD001-001` and `n = 3`. -/
theorem generate_returns_ascending_cycles_witness :
    (generateCMAPSSSensorData env0 "CMAPSS-FD001-001" 3).length = 3 ∧
    (generateCMAPSSSensorData env0 "CMAPSS-FD001-001" 3).map (fun r => r.cycle) =
      List.range' 1 3 :=
  generate_returns_ascending_cycles env0 "CMAPSS-FD001-001" 3 engineFD001a
    (by with_unfolding_all rfl)

/-- C2 (counterexample): the output `EGT` channel does not equal
`(T30 − 459.67) × 5/9` of the output `T30` channel exactly: with all
noise draws at `0.5` (zero jitter), the cycle-1 reading of
`CMAPSS-FD001-001` has `EGT = 494.7` but
`(T30 − 459.67) × 5/9 = (1350.07 − 459.67) × 5/9 = 494.666...`, because
`EGT` is rounded to 1 decimal of the pre-rounding conversion while `T30`
is rounded to 2 decimals. -/
theorem EGT_T30_exact_counterexample :
    ¬ ∀ r ∈ generateCMAPSSSensorData env0 "CMAPSS-FD001-001" 1,
        r.EGT = (r.T30 - 459.67) * 5 / 9 := by with_unfolding_all decide

/-- C2 (amended): for every reading there is a pre-rounding LPT-outlet
temperature `t` such that the output `T30` is `t` rounded to 2 decimals
and the output `EGT` is `(t − 459.67) × 5/9` rounded to 1 decimal: the
algebraic Rankine-to-Celsius relation holds exactly between the
pre-rounding values, unaffected by the noise draws, and the output
channels differ from it only by their per-channel output rounding. -/
theorem EGT_T30_rounding_relation (env : Env) (engineId : String) (n : ℕ)
    (r : CMAPSSSensorReading) (hr : r ∈ generateCMAPSSSensorData env engineId n) :
    ∃ t : ℚ, r.T30 = roundTo 2 t ∧ r.EGT = roundTo 1 ((t - 459.67) * 5 / 9) := by
  cases hfind : cmapssEngines.find? (fun e => e.engineId == engineId) with
  | none =>
    rw [generate_unknown env engineId n hfind] at hr
    exact absurd hr (List.not_mem_nil r)
  | some engine =>
    rw [generate_found env engineId n engine hfind] at hr
    obtain ⟨i, hi, rfl⟩ := List.mem_map.mp hr
    exact mkReading_T30_EGT env engine (datasetParams engine.dataset) engineId (i + 1)

/-- Witness for amended C2 at the first reading of `CMAPSS-FD001-001`
under the zero-jitter environment. -/
theorem EGT_T30_rounding_relation_witness :
    ∃ t : ℚ, sampleReading.T30 = roundTo 2 t ∧
      sampleReading.EGT = roundTo 1 ((t - 459.67) * 5 / 9) :=
  EGT_T30_rounding_relation env0 "CMAPSS-FD001-001" 1 sampleReading
    (by
      have hx : generateCMAPSSSensorData env0 "CMAPSS-FD001-001" 1 = [sampleReading] := by
        with_unfolding_all rfl
      rw [hx]
      exact List.mem_singleton_self sampleReading)

/-- C3 (counterexample): the output `epr` channel does not equal
`P24 / P2` of the output channels exactly: with all noise draws at `0.5`,
the cycle-1 reading of `CMAPSS-FD001-001` has `epr = 40.569` but
`P24 / P2 = 593.12 / 14.62 = 40.56908...`, because `epr` is rounded to
3 decimals of the pre-rounding quotient while `P24` and `P2` are rounded
to 2 decimals. -/
theorem epr_exact_counterexample :
    ¬ ∀ r ∈ generateCMAPSSSensorData env0 "CMAPSS-FD001-001" 1,
        r.epr = r.P24 / r.P2 := by with_unfolding_all decide

/-- C3 (amended): for every reading there are pre-rounding pressures
`p24` and `p2` such that the output `P24` and `P2` are their 2-decimal
roundings and the output `epr` is `p24 / p2` rounded to 3 decimals: the
engine-pressure-ratio relation holds exactly between the pre-rounding
values, and the output channels differ from it only by their per-channel
output rounding. -/
theorem epr_rounding_relation (env : Env) (engineId : String) (n : ℕ)
    (r : CMAPSSSensorReading) (hr : r ∈ generateCMAPSSSensorData env engineId n) :
    ∃ p24 p2 : ℚ, r.P24 = roundTo 2 p24 ∧ r.P2 = roundTo 2 p2 ∧
      r.epr = roundTo 3 (p24 / p2) := by
  cases hfind : cmapssEngines.find? (fun e => e.engineId == engineId) with
  | none =>
    rw [generate_unknown env engineId n hfind] at hr
    exact absurd hr (List.not_mem_nil r)
  | some engine =>
    rw [generate_found env engineId n engine hfind] at hr
    obtain ⟨i, hi, rfl⟩ := List.mem_map.mp hr
    exact mkReading_epr env engine (datasetParams engine.dataset) engineId (i + 1)

/-- Witness for amended C3 at the first reading of `CMAPSS-FD001-001`
under the zero-jitter environment. -/
theorem epr_rounding_relation_witness :
    ∃ p24 p2 : ℚ, sampleReading.P24 = roundTo 2 p24 ∧ sampleReading.P2 = roundTo 2 p2 ∧
      sampleReading.epr = roundTo 3 (p24 / p2) :=
  epr_rounding_relation env0 "CMAPSS-FD001-001" 1 sampleReading
    (by
      have hx : generateCMAPSSSensorData env0 "CMAPSS-FD001-001" 1 = [sampleReading] := by
        with_unfolding_all rfl
      rw [hx]
      exact List.mem_singleton_self sampleReading)

/-- C4: for every engineId with no record in the registry,
`generateCMAPSSHealthData` fails with the NotFound error
`Engine <id> not found` — a message naming the requested id — rather
than returning a health assessment. -/
theorem assess_unknown_fails (engineId : String)
    (h : cmapssEngines.find? (fun e => e.engineId == engineId) = none) :
    generateCMAPSSHealthData engineId =
      Except.error ("Engine " ++ engineId ++ " not found") := by
  unfold generateCMAPSSHealthData
  rw [h]

/-- Witness for C4 at `unknown-id`. -/
theorem assess_unknown_fails_witness :
    generateCMAPSSHealthData "unknown-id" =
      Except.error ("Engine " ++ "unknown-id" ++ " not found") :=
  assess_unknown_fails "unknown-id" (by with_unfolding_all decide)

/-- C5: for every engineId with no record in the registry, the sensor
series generator returns the empty sequence and the performance-metrics
derivation returns `none`; neither signals an error (their return types
carry no error case at all). -/
theorem unknown_id_silent_empty (env : Env) (engineId : String) (n : ℕ)
    (h : cmapssEngines.find? (fun e => e.engineId == engineId) = none) :
    generateCMAPSSSensorData env engineId n = [] ∧
    getCMAPSSPerformanceMetrics env engineId = none := by
  refine ⟨generate_unknown env engineId n h, ?_⟩
  unfold getCMAPSSPerformanceMetrics
  rw [h]

/-- Witness for C5 at `unknown-id` with `n = 10`. -/
theorem unknown_id_silent_empty_witness :
    generateCMAPSSSensorData env0 "unknown-id" 10 = [] ∧
    getCMAPSSPerformanceMetrics env0 "unknown-id" = none :=
  unknown_id_silent_empty env0 "unknown-id" 10 (by with_unfolding_all decide)

/-- C6: for every engineId with a registry record whose healthScore lies
in `[0, 100]`, the health assessment succeeds and returns
`faultProbability ∈ [0, 0.8]` and `remainingUsefulLife ≥ 0`. -/
theorem assess_bounds (engineId : String) (engine : CMAPSSEngine)
    (h : cmapssEngines.find? (fun e => e.engineId == engineId) = some engine)
    (h0 : 0 ≤ engine.healthScore) (_h100 : engine.healthScore ≤ 100) :
    ∃ hd, generateCMAPSSHealthData engineId = Except.ok hd ∧
      0 ≤ hd.faultProbability ∧ hd.faultProbability ≤ 0.8 ∧
      0 ≤ hd.remainingUsefulLife := by
  unfold generateCMAPSSHealthData
  rw [h]
  refine ⟨_, rfl, ?_, ?_, ?_⟩
  · show (0 : ℚ) ≤ roundTo 3 (max 0 ((100 - engine.healthScore) / 100 * 0.8))
    have h1 : roundTo 3 (0 : ℚ) = 0 := by with_unfolding_all decide
    calc (0 : ℚ) = roundTo 3 0 := h1.symm
      _ ≤ _ := roundTo_mono 3 (le_max_left _ _)
  · show roundTo 3 (max 0 ((100 - engine.healthScore) / 100 * 0.8)) ≤ 0.8
    have h1 : max 0 ((100 - engine.healthScore) / 100 * 0.8) ≤ 0.8 := by
      apply max_le (by norm_num)
      linarith
    have h2 : roundTo 3 (0.8 : ℚ) = 0.8 := by with_unfolding_all decide
    calc roundTo 3 (max 0 ((100 - engine.healthScore) / 100 * 0.8))
        ≤ roundTo 3 0.8 := roundTo_mono 3 h1
      _ = 0.8 := h2
  · show (0 : ℤ) ≤ round (max 0 ((engine.cycles : ℚ) * 1.3 - (engine.cycles : ℚ)))
    have h1 : round (0 : ℚ) ≤
        round (max 0 ((engine.cycles : ℚ) * 1.3 - (engine.cycles : ℚ))) :=
      round_rat_mono (le_max_left _ _)
    simpa using h1

/-- Witness for C6 at engine `CMAPSS-FD001-001` (healthScore 92.5). -/
theorem assess_bounds_witness :
    ∃ hd, generateCMAPSSHealthData "CMAPSS-FD001-001" = Except.ok hd ∧
      0 ≤ hd.faultProbability ∧ hd.faultProbability ≤ 0.8 ∧
      0 ≤ hd.remainingUsefulLife :=
  assess_bounds "CMAPSS-FD001-001" engineFD001a (by with_unfolding_all rfl)
    (by with_unfolding_all decide) (by with_unfolding_all decide)

/-- C7: for engine `CMAPSS-FD004-002` (healthScore 68.9, Fan Degradation
present, dataset FD004), the assessment returns
`degradationRate = 0.15 + 0.05 + 0.03 = 0.23`, the urgent-tier
maintenance recommendation, and a criticalComponents list consisting of
the four fault-driven names plus `Combustor` and `Turbine Blades`
(list equality, which entails the claimed containment). -/
theorem assess_FD004_002_scenario :
    (generateCMAPSSHealthData "CMAPSS-FD004-002").toOption.map
      (fun hd => (hd.degradationRate, hd.maintenanceRecommendation, hd.criticalComponents)) =
    some (0.23,
      "URGENT: Schedule immediate maintenance - engine approaching critical degradation levels",
      ["High Pressure Compressor", "Compressor Blades", "Fan Blades", "Fan Disk",
       "Combustor", "Turbine Blades"]) := by with_unfolding_all decide

/-- C8: for engine `CMAPSS-FD001-001` (cycles 362, healthScore 92.5,
dataset FD001, faultModes `[HPC Degradation]`), the assessment returns
`remainingUsefulLife = round(362 × 1.3 − 362) = 109`,
`degradationRate = 0.15`, the routine maintenance recommendation, and
criticalComponents exactly `[High Pressure Compressor, Compressor Blades]`. -/
theorem assess_FD001_001_scenario :
    (generateCMAPSSHealthData "CMAPSS-FD001-001").toOption.map
      (fun hd => (hd.remainingUsefulLife, hd.degradationRate,
        hd.maintenanceRecommendation, hd.criticalComponents)) =
    some (109, 0.15, "Continue normal operations",
      ["High Pressure Compressor", "Compressor Blades"]) := by with_unfolding_all decide

/-- C9: for every registered engineId and every noise environment
(arbitrary draws, however extreme), the performance-metrics derivation
succeeds and returns `fuelEfficiency ≥ 0.7` and
`thermalEfficiency ≥ 0.75`. -/
theorem metrics_efficiency_bounds (env : Env) (engineId : String) (engine : CMAPSSEngine)
    (h : cmapssEngines.find? (fun e => e.engineId == engineId) = some engine) :
    ∃ m, getCMAPSSPerformanceMetrics env engineId = some m ∧
      0.7 ≤ m.fuelEfficiency ∧ 0.75 ≤ m.thermalEfficiency := by
  refine ⟨_, metrics_found env engineId engine h, ?_, ?_⟩
  · show (0.7 : ℚ) ≤ roundTo 3 (max 0.7 (1 -
      ((mkReading env engine (datasetParams engine.dataset) engineId 10).fuelFlow - 2500)
        / 2500))
    have h1 : roundTo 3 (0.7 : ℚ) = 0.7 := by with_unfolding_all decide
    calc (0.7 : ℚ) = roundTo 3 0.7 := h1.symm
      _ ≤ _ := roundTo_mono 3 (le_max_left _ _)
  · show (0.75 : ℚ) ≤ roundTo 3 (max 0.75 (1 -
      ((mkReading env engine (datasetParams engine.dataset) engineId 10).EGT - 650) / 650))
    have h1 : roundTo 3 (0.75 : ℚ) = 0.75 := by with_unfolding_all decide
    calc (0.75 : ℚ) = roundTo 3 0.75 := h1.symm
      _ ≤ _ := roundTo_mono 3 (le_max_left _ _)

/-- Witness for C9 at engine `CMAPSS-FD001-001` under the zero-jitter
environment. -/
theorem metrics_efficiency_bounds_witness :
    ∃ m, getCMAPSSPerformanceMetrics env0 "CMAPSS-FD001-001" = some m ∧
      0.7 ≤ m.fuelEfficiency ∧ 0.75 ≤ m.thermalEfficiency :=
  metrics_efficiency_bounds env0 "CMAPSS-FD001-001" engineFD001a
    (by with_unfolding_all rfl)

/-- C10: for every engineId with no record in the registry, the
component-health breakdown fails with the NotFound error propagated from
the health assessment it calls, instead of returning its 5-component
list or an empty list — it follows the explicit-failure policy. -/
theorem componentHealth_unknown_fails ( rand : ℕ → ℚ) (engineId : String)
    (h : cmapssEngines.find? (fun e => e.engineId == engineId) = none) :
    getComponentHealthData rand engineId =
      Except.error ("Engine " ++ engineId ++ " not found") := by
  unfold getComponentHealthData generateCMAPSSHealthData
  rw [h]

/-- Witness for C10 at `unknown-id`. -/
theorem componentHealth_unknown_fails_witness :
    getComponentHealthData rand0 "unknown-id" =
      Except.error ("Engine " ++ "unknown-id" ++ " not found") :=
  componentHealth_unknown_fails rand0 "unknown-id" (by with_unfolding_all decide)

end JEDT
